import Mathlib

/-!
# Verification of the imdb_ratings title-sync and review-ingestion pipeline

A shallow embedding of the core pipeline of the `imdb_ratings` repository:

* `src/imdb_ratings/core/constants.py` — retry/backoff and threshold constants;
* `src/imdb_ratings/updater/sources/scrape_reviews.py` —
  `get_reviews_from_title_code`: the per-title paginated fetch loop with
  rate-limit backoff, a consecutive-transient-failure budget, and the final
  review filter;
* `src/imdb_ratings/updater/update_titles.py` — `update_title_table`'s
  diff step selecting catalog rows that are new or have ≥ 5% more votes;
* `src/imdb_ratings/repository/title_repository.py` —
  `get_titles_needing_update` and `mark_titles_updated`;
* `src/imdb_ratings/repository/base.py` / `review_repository.py` — batched
  idempotent upsert keyed on `review_id`;
* `src/imdb_ratings/updater/update_reviews.py` — `update_reviews_table`,
  the orchestrator looping over titles.

Network calls are modelled by a script: a list of responses, one consumed
per call to `get_json_reviews`. Python exceptions are modelled as explicit
outcome constructors; an exception raised by a store write is modelled by
the index of the batch whose write raises, injected per title — the batches
before it are already persisted when the error surfaces, exactly as in
`BaseRepository.upsert_batch`.
-/

/-! ## Constants (src/imdb_ratings/core/constants.py) -/

/-- `SCRAPER_MAX_RETRIES = 3` -/
def SCRAPER_MAX_RETRIES : Nat := 3

/-- `SCRAPER_MAX_CONSECUTIVE_FAILURES = 3` -/
def SCRAPER_MAX_CONSECUTIVE_FAILURES : Nat := 3

/-- `RATE_LIMIT_BASE_WAIT_SECONDS = 60` -/
def RATE_LIMIT_BASE_WAIT_SECONDS : Nat := 60

/-- `RATE_LIMIT_MAX_WAIT_SECONDS = 300` -/
def RATE_LIMIT_MAX_WAIT_SECONDS : Nat := 300

/-- `VOTE_INCREASE_THRESHOLD = 1.05` (a Python float literal; modelled as the
exact rational 21/20 — for vote counts below 2⁴⁶ the double-precision
comparison `num_votes >= num_votes_supabase * 1.05` agrees with the exact
rational comparison, since the relative error of the rounded constant,
about 4.2·10⁻¹⁷, is below the half-ulp bound 2⁻⁵⁴ of the product, and the
exact product has denominator dividing 20). -/
def VOTE_INCREASE_THRESHOLD : ℚ := 21 / 20

/-! ## Review data model (scrape_reviews.py, class ReviewData) -/

/-- `class ReviewData(BaseModel)`: one scraped review. `rating` is
`int | None` in the source, hence `Option Int` here; the vote counters and
word count are nonnegative. -/
structure ReviewData where
  review_id : Nat
  title_id : Nat
  rating : Option Int
  num_helpful : Nat
  num_unhelpful : Nat
  num_words : Nat
deriving DecidableEq, Repr

/-- The subset of `ScrapingConfig` (src/imdb_ratings/core/config.py) consumed
by the review filter: `min_helpful_votes` (default 1) and `min_review_words`
(default 100), both constrained `ge=0`. -/
structure ScrapingConfig where
  min_helpful_votes : Nat
  min_review_words : Nat
deriving DecidableEq, Repr

/-- The filter applied at the end of `get_reviews_from_title_code`:
`rating.is_not_null() & (num_helpful > min_helpful_votes) &
(num_words >= min_review_words)`. -/
def review_keep (config : ScrapingConfig) (r : ReviewData) : Bool :=
  r.rating.isSome &&
  decide (r.num_helpful > config.min_helpful_votes) &&
  decide (r.num_words ≥ config.min_review_words)

/-! ## The per-title fetch loop (get_reviews_from_title_code)

Each call to `get_json_reviews` is modelled by consuming the head of a
script.  The possible observable outcomes of one call, read off
`get_json_reviews`:

* a parsed page (the `ReviewsData` payload: extracted reviews, `hasNextPage`,
  `endCursor`) — normal return;
* `transient` — the function returns `None` (HTTP 5xx server error);
* `rateLimited` — it raises `RateLimitError` (HTTP 429);
* `networkError` — it raises `NetworkError` (timeout, connection error,
  4xx client error, or other request failure);
* `validationError` — it raises `DataValidationError` (bad JSON, GraphQL
  error, or unexpected response structure).
-/

/-- One scripted response of the remote source, as classified by
`get_json_reviews`.  A `page` carries the reviews already extracted by
`extract_reviews_from_json` together with the page info. -/
inductive FetchResponse where
  | page (reviews : List ReviewData) (hasNextPage : Bool) (endCursor : String)
  | transient
  | rateLimited
  | networkError
  | validationError
deriving DecidableEq, Repr

/-- The fatal error classes that can propagate out of
`get_reviews_from_title_code`. -/
inductive FetchError where
  | network
  | validation
  | rateLimitExceeded
deriving DecidableEq, Repr

/-- Outcome of the pagination loop, before the final filter.  `ok` carries
the accumulated (unfiltered) reviews, returned on normal pagination
exhaustion or on abandonment after too many consecutive transient failures;
`fatal` models an exception propagating out of the loop — it carries no
reviews, exactly as a Python `raise` discards the local `reviews` list.
`outOfScript` marks a script too short to drive the loop to termination. -/
inductive FetchOutcome where
  | ok (reviews : List ReviewData)
  | fatal (e : FetchError)
  | outOfScript
deriving DecidableEq, Repr

/-- The backoff wait on the n-th consecutive rate-limited attempt:
`wait_time = min(RATE_LIMIT_BASE_WAIT_SECONDS * retry_count,
RATE_LIMIT_MAX_WAIT_SECONDS)` with `retry_count` already incremented. -/
def rate_limit_wait (retry_count : Nat) : Nat :=
  min (RATE_LIMIT_BASE_WAIT_SECONDS * retry_count) RATE_LIMIT_MAX_WAIT_SECONDS

/-- The `while has_next_page` loop of `get_reviews_from_title_code`, one
script entry consumed per `get_json_reviews` call.  State mirrors the
Python locals: `cursor`, `consecutive_failures` (`consecFail`), the
accumulated `reviews` (`acc`), and the inner loop's `retry_count`
(`retryCount`).  Returns the loop outcome and the list of rate-limit backoff
waits slept (`time.sleep(wait_time)`), in order.

Per response:
* page: `consecutive_failures = 0`, reviews appended, cursor advanced,
  loop again iff `hasNextPage` (the inner retry loop restarts at 0);
* transient (`None` return): `consecutive_failures += 1`; at
  `SCRAPER_MAX_CONSECUTIVE_FAILURES` the loop sets `has_next_page = False`
  and stops with the reviews accumulated so far; below it, the same cursor
  is retried;
* rate-limited: `retry_count += 1`; below `max_retries` the loop sleeps
  `rate_limit_wait retry_count` and retries the same cursor without touching
  `consecutive_failures`; at `max_retries` it re-raises `RateLimitError`
  (modelled `fatal .rateLimitExceeded`);
* network / validation error: re-raised immediately. -/
def fetchLoop (maxRetries : Nat) (script : List FetchResponse)
    (cursor : String) (consecFail : Nat) (acc : List ReviewData)
    (retryCount : Nat) : FetchOutcome × List Nat :=
  match script with
  | [] => (.outOfScript, [])
  | response :: rest =>
    match response with
    | .page reviews hasNextPage endCursor =>
      if hasNextPage then
        fetchLoop maxRetries rest endCursor 0 (acc ++ reviews) 0
      else
        (.ok (acc ++ reviews), [])
    | .transient =>
      if consecFail + 1 ≥ SCRAPER_MAX_CONSECUTIVE_FAILURES then
        (.ok acc, [])
      else
        fetchLoop maxRetries rest cursor (consecFail + 1) acc 0
    | .rateLimited =>
      if retryCount + 1 < maxRetries then
        let next := fetchLoop maxRetries rest cursor consecFail acc (retryCount + 1)
        (next.1, rate_limit_wait (retryCount + 1) :: next.2)
      else
        (.fatal .rateLimitExceeded, [])
    | .networkError => (.fatal .network, [])
    | .validationError => (.fatal .validation, [])

/-- Result of `get_reviews_from_title_code`: on normal or abandoned
termination the accumulated reviews pass through the filter; a fatal
error propagates. -/
inductive FetchResult where
  | ok (filtered : List ReviewData)
  | fatal (e : FetchError)
  | outOfScript
deriving DecidableEq, Repr

/-- `get_reviews_from_title_code(title_code, session, max_retries)`: runs the
pagination loop from `cursor = ""`, `consecutive_failures = 0`, an empty
review list and `retry_count = 0`, then filters the accumulated reviews with
`review_keep`.  Returns the result together with the rate-limit waits slept. -/
def get_reviews_from_title_code (config : ScrapingConfig) (maxRetries : Nat)
    (script : List FetchResponse) : FetchResult × List Nat :=
  match fetchLoop maxRetries script "" 0 [] 0 with
  | (.ok reviews, waits) => (.ok (reviews.filter (review_keep config)), waits)
  | (.fatal e, waits) => (.fatal e, waits)
  | (.outOfScript, waits) => (.outOfScript, waits)

/-! ## Title diff (src/imdb_ratings/updater/update_titles.py)

`update_title_table` joins the catalog snapshot (left) against the persisted
snapshot's `id`/`num_votes` columns, keeps the rows whose persisted match is
null or whose `num_votes >= num_votes_supabase * 1.05`, and stamps
`needsUpdate = True` on everything kept.  The join/filter step is skipped
entirely when the persisted snapshot has no rows. -/

/-- A catalog row, reduced to the columns the diff reads (`id` is the join
key via the left join; `num_votes` feeds the threshold comparison; the
remaining catalog columns pass through unchanged and are not modelled). -/
structure CatalogTitle where
  id : Nat
  num_votes : Nat
deriving DecidableEq, Repr

/-- The persisted snapshot's projection
`select(["id", "num_votes"])` used as the right side of the join. -/
structure PersistedTitle where
  id : Nat
  num_votes : Nat
deriving DecidableEq, Repr

/-- A row of the upsert payload: a catalog row plus the `needsUpdate` column
added by `with_columns(pl.lit(True).alias("needsUpdate"))`. -/
structure UpsertTitle where
  title : CatalogTitle
  needsUpdate : Bool
deriving DecidableEq, Repr

/-- The left join on `id`: the `num_votes_supabase` value for a catalog id,
`none` when the id is absent from the persisted snapshot. -/
def lookup_votes (persisted : List PersistedTitle) (id : Nat) : Option Nat :=
  (persisted.find? (fun p => p.id == id)).map (fun p => p.num_votes)

/-- The vote comparison `pl.col("num_votes") >=
pl.col("num_votes_supabase") * VOTE_INCREASE_THRESHOLD`, in exact integer
cross-multiplied form (`vote_threshold_met_iff_rat` below proves this equal
to the rational comparison against 21/20; see `VOTE_INCREASE_THRESHOLD` for
why that agrees with the double-precision comparison at all realistic vote
counts). -/
def vote_threshold_met (catalog_votes persisted_votes : Nat) : Bool :=
  decide (20 * catalog_votes ≥ 21 * persisted_votes)

/-- The filter predicate of the join step:
`num_votes_supabase.is_null() | (num_votes >= num_votes_supabase * 1.05)`. -/
def title_row_selected (persisted : List PersistedTitle) (c : CatalogTitle) : Bool :=
  match lookup_votes persisted c.id with
  | none => true
  | some v => vote_threshold_met c.num_votes v

/-- The diff step of `update_title_table`: when the persisted snapshot has
rows, filter the catalog by `title_row_selected`; otherwise keep the whole
catalog; in both cases stamp `needsUpdate = true`. -/
def update_title_table_diff (catalog : List CatalogTitle)
    (persisted : List PersistedTitle) : List UpsertTitle :=
  let titles_to_update :=
    if persisted.length > 0 then catalog.filter (title_row_selected persisted)
    else catalog
  titles_to_update.map (fun c => { title := c, needsUpdate := true })

/-! ## Repositories (src/imdb_ratings/repository/)

Stores are modelled as in-memory lists of rows.  `upsert` replaces the row
with the same key when one exists, else appends — the idempotent batched
upsert of `BaseRepository.upsert_batch`. -/

/-- A row of the titles table, reduced to the columns
`get_titles_needing_update` selects (`id, needsUpdate, firstWorld`); the
two flags are nullable columns, hence `Option Bool`. -/
structure TitleRow where
  id : Nat
  needsUpdate : Option Bool
  firstWorld : Option Bool
deriving DecidableEq, Repr

/-- `TitleRepository.get_titles_needing_update`: filter
`pl.col("needsUpdate") & pl.col("firstWorld")` and project `id`.  A polars
filter keeps a row only when the expression evaluates to `true`; under
Kleene logic the conjunction of two nullable booleans is `true` exactly when
both are non-null `true`, so a row with either flag `false` or null is
dropped. -/
def get_titles_needing_update (rows : List TitleRow) : List Nat :=
  (rows.filter (fun r => r.needsUpdate == some true && r.firstWorld == some true)).map
    (fun r => r.id)

/-- `TitleRepository.mark_titles_updated(title_id)`: set
`needsUpdate = False` on every row whose `id` equals `title_id`. -/
def mark_titles_updated (rows : List TitleRow) (title_id : Nat) : List TitleRow :=
  rows.map (fun r => if r.id == title_id then { r with needsUpdate := some false } else r)

/-- One step of the review upsert: replace the stored review with the same
`review_id`, or append when none exists. -/
def upsert_one_review (stored : List ReviewData) (r : ReviewData) : List ReviewData :=
  if stored.any (fun s => s.review_id == r.review_id) then
    stored.map (fun s => if s.review_id == r.review_id then r else s)
  else
    stored ++ [r]

/-- The fully successful review upsert (`ReviewRepository.upsert_reviews`
feeding `BaseRepository.upsert_batch` with every batch write succeeding):
idempotent upsert keyed on `review_id`.  Batching only splits the list into
chunks written in order, so the resulting table state is the left fold over
all records. -/
def upsert_reviews (stored : List ReviewData) (incoming : List ReviewData) :
    List ReviewData :=
  incoming.foldl upsert_one_review stored

/-- `BaseRepository.upsert_batch` under an injected write fault.  The data
is written in consecutive batches of `batch_size` records
(`data[i:i+batch_size]` for `i = 0, batch_size, ...`); each batch write
either succeeds or raises `DatabaseOperationError`.  `failAt = some k`
models the write of the k-th batch (0-indexed) raising: the `k * batch_size`
records of the preceding batches are already persisted when the exception
surfaces.  `failAt = none` — or a `k` past the last batch, where no write
remains to fail — persists everything.  Returns the resulting table state
and whether the call raised. -/
def upsert_batch (batch_size : Nat) (stored data : List ReviewData)
    (failAt : Option Nat) : List ReviewData × Bool :=
  match failAt with
  | none => (upsert_reviews stored data, false)
  | some k =>
    if k * batch_size < data.length then
      (upsert_reviews stored (data.take (k * batch_size)), true)
    else
      (upsert_reviews stored data, false)

/-! ## Orchestrator (src/imdb_ratings/updater/update_reviews.py)

`update_reviews_table` loops over the selected title ids; for each it runs
`get_reviews_from_title_code`, and only when the filtered frame is
non-empty upserts the reviews and calls `mark_titles_updated`.  The whole
body of one iteration sits in `try: ... except Exception: continue`, so any
exception — a fatal fetch error or a `DatabaseOperationError` from
`upsert_batch` — is logged and the loop continues with the next title.
When the upsert raises mid-way, the batches already written stay persisted
(there is no transaction around the batch loop) while `mark_titles_updated`
is never reached. -/

/-- The two persisted tables touched by the orchestrator. -/
structure Store where
  titles : List TitleRow
  reviews : List ReviewData
deriving DecidableEq, Repr

/-- Observable outcome of one title's iteration: `updated` (reviews upserted
and flag cleared), `noReviews` (empty filtered frame — only a debug log), or
`errored` (an exception caught by the per-title handler). -/
inductive TitleOutcome where
  | updated
  | noReviews
  | errored
deriving DecidableEq, Repr

/-- The body of one iteration of `update_reviews_table`'s loop for
`title_id`.  `script` drives the fetch; `upsertFailAt` injects the failing
batch index of `upsert_batch` (`none`: all writes succeed).  When the
upsert raises, the per-title `except Exception: continue` catches it: the
batches written before the failing one remain persisted, the titles table
is untouched (`mark_titles_updated` is never reached), and the iteration
ends `errored`. -/
def process_title (config : ScrapingConfig) (maxRetries batch_size : Nat)
    (store : Store) (title_id : Nat) (script : List FetchResponse)
    (upsertFailAt : Option Nat) : Store × TitleOutcome :=
  match (get_reviews_from_title_code config maxRetries script).1 with
  | .ok filtered =>
    if filtered.isEmpty then
      (store, .noReviews)
    else
      match upsert_batch batch_size store.reviews filtered upsertFailAt with
      | (written, true) => ({ store with reviews := written }, .errored)
      | (written, false) =>
        ({ titles := mark_titles_updated store.titles title_id,
           reviews := written }, .updated)
  | .fatal _ => (store, .errored)
  | .outOfScript => (store, .errored)

/-- The title selection of `update_reviews_table`: the explicit
`titles_to_update` argument when given, else
`title_repo.get_titles_needing_update()`. -/
def select_titles (store : Store) (titles_to_update : Option (List Nat)) : List Nat :=
  match titles_to_update with
  | some ids => ids
  | none => get_titles_needing_update store.titles

/-- `update_reviews_table`: iterate `process_title` over the selected title
ids, threading the store.  `jobs` supplies, per title id, the fetch script
and the injected upsert fault (the failing batch index, if any). -/
def update_reviews_table (config : ScrapingConfig) (maxRetries batch_size : Nat)
    (store : Store) (titles_to_update : Option (List Nat))
    (jobs : Nat → List FetchResponse × Option Nat) : Store :=
  (select_titles store titles_to_update).foldl
    (fun st i => (process_title config maxRetries batch_size st i (jobs i).1 (jobs i).2).1)
    store

/-! ## Supporting lemmas -/

/-- `vote_threshold_met` computes exactly
`catalog_votes ≥ persisted_votes * VOTE_INCREASE_THRESHOLD` over ℚ: the
cross-multiplied integer comparison in the definition is the 5%-increase
test of `update_title_table`. -/
theorem vote_threshold_met_iff_rat (c v : Nat) :
    vote_threshold_met c v = true ↔
      (c : ℚ) ≥ (v : ℚ) * VOTE_INCREASE_THRESHOLD := by
  unfold vote_threshold_met VOTE_INCREASE_THRESHOLD
  rw [decide_eq_true_iff, ge_iff_le, ge_iff_le, mul_div_assoc',
    div_le_iff₀ (by norm_num : (0 : ℚ) < 20)]
  constructor
  · intro h
    calc ((v : ℚ) * 21) = ((21 * v : ℕ) : ℚ) := by push_cast; ring
    _ ≤ ((20 * c : ℕ) : ℚ) := by exact_mod_cast h
    _ = (c : ℚ) * 20 := by push_cast; ring
  · intro h
    have h2 : ((21 * v : ℕ) : ℚ) ≤ ((20 * c : ℕ) : ℚ) := by
      push_cast
      calc (21 : ℚ) * v = (v : ℚ) * 21 := by ring
      _ ≤ (c : ℚ) * 20 := h
      _ = 20 * (c : ℚ) := by ring
    exact_mod_cast h2

/-- The join-step filter predicate holds iff the id has no persisted match
or the matched persisted vote count meets the 5% threshold. -/
theorem title_row_selected_iff (persisted : List PersistedTitle) (c : CatalogTitle) :
    title_row_selected persisted c = true ↔
      ((∀ p ∈ persisted, p.id ≠ c.id) ∨
        ∃ v, lookup_votes persisted c.id = some v ∧
          vote_threshold_met c.num_votes v = true) := by
  unfold title_row_selected
  rcases h : lookup_votes persisted c.id with _ | v
  · simp only [h]
    constructor
    · intro _
      left
      intro p hp
      have hfind : persisted.find? (fun p => p.id == c.id) = none := by
        unfold lookup_votes at h
        exact Option.map_eq_none'.mp h
      have hnp := List.find?_eq_none.mp hfind p hp
      simpa using hnp
    · intro _
      trivial
  · simp only [h]
    constructor
    · intro hth
      exact Or.inr ⟨v, rfl, hth⟩
    · intro hdisj
      rcases hdisj with hall | ⟨v', hv', hth⟩
      · exfalso
        unfold lookup_votes at h
        obtain ⟨p0, hp0, _⟩ := Option.map_eq_some'.mp h
        have hmem := List.mem_of_find?_eq_some hp0
        have hbeq := List.find?_some hp0
        exact hall p0 hmem (by simpa using hbeq)
      · rw [Option.some.inj hv']
        exact hth

/-! ## Claim theorems -/

/-- C3: a catalog row is included in the diff result exactly when no
persisted row with the same id exists or its `num_votes` is at least 1.05
times the matched persisted row's `num_votes`; every included row is
stamped `needsUpdate = true`; and an empty persisted snapshot yields the
whole catalog snapshot flagged `needsUpdate = true`. -/
theorem update_title_table_diff_spec (catalog : List CatalogTitle)
    (persisted : List PersistedTitle) :
    (∀ u : UpsertTitle,
      u ∈ update_title_table_diff catalog persisted ↔
        (u.needsUpdate = true ∧ u.title ∈ catalog ∧
          ((∀ p ∈ persisted, p.id ≠ u.title.id) ∨
            ∃ v, lookup_votes persisted u.title.id = some v ∧
              vote_threshold_met u.title.num_votes v = true))) ∧
    update_title_table_diff catalog []
      = catalog.map (fun c => { title := c, needsUpdate := true }) := by
  constructor
  · intro u
    unfold update_title_table_diff
    by_cases hp : persisted.length > 0
    · simp only [if_pos hp, List.mem_map, List.mem_filter]
      constructor
      · rintro ⟨c, ⟨hc, hsel⟩, rfl⟩
        exact ⟨rfl, hc, (title_row_selected_iff persisted c).mp hsel⟩
      · rintro ⟨hnu, ht, hcond⟩
        refine ⟨u.title, ⟨ht, (title_row_selected_iff persisted u.title).mpr hcond⟩, ?_⟩
        obtain ⟨t, b⟩ := u
        simp only at hnu
        rw [hnu]
    · have hpe : persisted = [] := List.length_eq_zero.mp (Nat.eq_zero_of_not_pos hp)
      subst hpe
      simp only [if_neg hp, List.mem_map]
      constructor
      · rintro ⟨c, hc, rfl⟩
        refine ⟨rfl, hc, Or.inl ?_⟩
        intro p hp2
        cases hp2
      · rintro ⟨hnu, ht, _⟩
        refine ⟨u.title, ht, ?_⟩
        obtain ⟨t, b⟩ := u
        simp only at hnu
        rw [hnu]
  · rfl

/-- Witness for `update_title_table_diff_spec`: at a concrete
catalog/persisted pair, a new id (8) is included, an id (7) whose votes
did not grow 5% is excluded, and the first-run equality holds. -/
theorem update_title_table_diff_spec_witness :
    (({ title := ⟨8, 500⟩, needsUpdate := true } : UpsertTitle)
        ∈ update_title_table_diff [⟨7, 1049⟩, ⟨8, 500⟩] [⟨7, 1000⟩] ∧
      ¬ (({ title := ⟨7, 1049⟩, needsUpdate := true } : UpsertTitle)
        ∈ update_title_table_diff [⟨7, 1049⟩, ⟨8, 500⟩] [⟨7, 1000⟩])) ∧
    update_title_table_diff [⟨7, 1049⟩, ⟨8, 500⟩] []
      = [{ title := ⟨7, 1049⟩, needsUpdate := true },
         { title := ⟨8, 500⟩, needsUpdate := true }] := by
  refine ⟨⟨?_, ?_⟩, (update_title_table_diff_spec [⟨7, 1049⟩, ⟨8, 500⟩] []).2⟩
  · exact ((update_title_table_diff_spec [⟨7, 1049⟩, ⟨8, 500⟩] [⟨7, 1000⟩]).1 _).mpr
      (by decide)
  · intro hmem
    have h := ((update_title_table_diff_spec [⟨7, 1049⟩, ⟨8, 500⟩] [⟨7, 1000⟩]).1 _).mp hmem
    revert h
    decide

/-- C4: at the exact 5% boundary over persisted `num_votes = 1000`, a
catalog row with 1049 votes is excluded from the diff and one with 1050
votes is included. -/
theorem vote_threshold_boundary :
    update_title_table_diff [⟨7, 1049⟩] [⟨7, 1000⟩] = [] ∧
    update_title_table_diff [⟨7, 1050⟩] [⟨7, 1000⟩]
      = [{ title := ⟨7, 1050⟩, needsUpdate := true }] ∧
    vote_threshold_met 1049 1000 = false ∧
    vote_threshold_met 1050 1000 = true := by decide

/-- C5: the filter at the end of `get_reviews_from_title_code` keeps a
review iff its rating is present, `num_helpful` strictly exceeds
`min_helpful_votes` and `num_words` is at least `min_review_words`; an
absent rating always rejects; `(num_helpful, num_words, rating) =
(2, 150, 7)` passes under thresholds `(1, 100)`; and on any successfully
terminating fetch the returned frame is exactly the accumulated reviews
filtered by this predicate. -/
theorem review_filter_spec :
    (∀ (config : ScrapingConfig) (r : ReviewData),
      review_keep config r = true ↔
        (r.rating ≠ none ∧ r.num_helpful > config.min_helpful_votes ∧
          r.num_words ≥ config.min_review_words)) ∧
    (∀ (config : ScrapingConfig) (r : ReviewData),
      r.rating = none → review_keep config r = false) ∧
    (∀ (config : ScrapingConfig) (maxRetries : Nat) (script : List FetchResponse)
        (reviews : List ReviewData) (waits : List Nat),
      fetchLoop maxRetries script "" 0 [] 0 = (.ok reviews, waits) →
      (get_reviews_from_title_code config maxRetries script).1
        = .ok (reviews.filter (review_keep config))) ∧
    review_keep ⟨1, 100⟩ ⟨101, 1, some 7, 2, 0, 150⟩ = true := by
  refine ⟨?_, ?_, ?_, by decide⟩
  · intro config r
    unfold review_keep
    simp [Option.isSome_iff_ne_none, and_assoc]
  · intro config r hnone
    unfold review_keep
    simp [hnone]
  · intro config maxRetries script reviews waits h
    unfold get_reviews_from_title_code
    rw [h]

/-- Witness for `review_filter_spec`: the hypothesized conjuncts applied at
concrete inputs — an absent-rating review is rejected, and a one-page
script returns the filtered page. -/
theorem review_filter_spec_witness :
    review_keep ⟨1, 100⟩ ⟨101, 1, none, 5, 0, 200⟩ = false ∧
    (get_reviews_from_title_code ⟨1, 100⟩ 3
        [.page [⟨101, 1, some 7, 2, 0, 150⟩] false "c"]).1
      = .ok ([⟨101, 1, some 7, 2, 0, 150⟩].filter (review_keep ⟨1, 100⟩)) :=
  ⟨review_filter_spec.2.1 ⟨1, 100⟩ ⟨101, 1, none, 5, 0, 200⟩ rfl,
   review_filter_spec.2.2.1 ⟨1, 100⟩ 3
     [.page [⟨101, 1, some 7, 2, 0, 150⟩] false "c"]
     [⟨101, 1, some 7, 2, 0, 150⟩] [] rfl⟩

/-- C6: the backoff wait on the n-th consecutive rate-limited attempt is
`min(RATE_LIMIT_BASE_WAIT_SECONDS * n, RATE_LIMIT_MAX_WAIT_SECONDS)`, and a
run of the fetch loop through six consecutive rate-limited responses sleeps
exactly 60, 120, 180, 240, 300, 300 seconds. -/
theorem rate_limit_backoff_spec :
    (∀ n, rate_limit_wait n
      = min (RATE_LIMIT_BASE_WAIT_SECONDS * n) RATE_LIMIT_MAX_WAIT_SECONDS) ∧
    (fetchLoop 7
        [.rateLimited, .rateLimited, .rateLimited, .rateLimited, .rateLimited,
          .rateLimited, .page [] false ""] "" 0 [] 0).2
      = [60, 120, 180, 240, 300, 300] :=
  ⟨fun _ => rfl, by decide⟩

/-- C7: fed four successful pages of which exactly the first three have
`hasNextPage = true`, the loop terminates normally after consuming exactly
those four pages (any further script entries are untouched), accumulating
the four pages' reviews in cursor order. -/
theorem pagination_four_pages (p1 p2 p3 p4 : List ReviewData)
    (c1 c2 c3 c4 : String) (rest : List FetchResponse) :
    fetchLoop SCRAPER_MAX_RETRIES
      ([.page p1 true c1, .page p2 true c2, .page p3 true c3, .page p4 false c4]
        ++ rest) "" 0 [] 0
      = (.ok (p1 ++ p2 ++ p3 ++ p4), []) := by
  simp [fetchLoop]

/-- C8: below the consecutive-failure threshold a transient failure retries
the same cursor with the counter incremented; and a session fed three
consecutive transient failures (threshold 3) after one successful page
terminates without raising, returning the filtered reviews accumulated
before the failures began. -/
theorem failure_budget_spec :
    (∀ (maxRetries : Nat) (rest : List FetchResponse) (cursor : String)
        (consecFail : Nat) (acc : List ReviewData),
      consecFail + 1 < SCRAPER_MAX_CONSECUTIVE_FAILURES →
      fetchLoop maxRetries (.transient :: rest) cursor consecFail acc 0
        = fetchLoop maxRetries rest cursor (consecFail + 1) acc 0) ∧
    (∀ (config : ScrapingConfig) (p1 : List ReviewData) (c1 : String)
        (rest : List FetchResponse),
      get_reviews_from_title_code config SCRAPER_MAX_RETRIES
        ([.page p1 true c1, .transient, .transient, .transient] ++ rest)
        = (.ok (p1.filter (review_keep config)), [])) := by
  constructor
  · intro maxRetries rest cursor consecFail acc h
    have hred : fetchLoop maxRetries (.transient :: rest) cursor consecFail acc 0
        = if consecFail + 1 ≥ SCRAPER_MAX_CONSECUTIVE_FAILURES then
            ((FetchOutcome.ok acc), ([] : List Nat))
          else fetchLoop maxRetries rest cursor (consecFail + 1) acc 0 := rfl
    rw [hred, if_neg (by omega)]
  · intro config p1 c1 rest
    rfl

/-- Witness for `failure_budget_spec`: the transient-retry equation at
counter 0 and the three-failure script at a concrete page. -/
theorem failure_budget_spec_witness :
    fetchLoop 3 [.transient] "" 0 [] 0 = fetchLoop 3 [] "" 1 [] 0 ∧
    get_reviews_from_title_code ⟨1, 100⟩ SCRAPER_MAX_RETRIES
        ([.page [⟨101, 1, some 7, 2, 0, 150⟩] true "c",
          .transient, .transient, .transient] ++ [])
      = (.ok ([⟨101, 1, some 7, 2, 0, 150⟩].filter (review_keep ⟨1, 100⟩)), []) :=
  ⟨failure_budget_spec.1 3 [] "" 0 [] (by decide),
   failure_budget_spec.2 ⟨1, 100⟩ [⟨101, 1, some 7, 2, 0, 150⟩] "c" []⟩

/-- C9: every fatal path — a network error, a validation error, or the
rate-limit retry budget being exhausted — yields a `fatal` outcome carrying
no reviews, whatever has been accumulated; and the top-level function
propagates a fatal loop outcome unchanged, so accumulated reviews are never
returned partially on a fatal error. -/
theorem fatal_error_discards_accumulated :
    (∀ (maxRetries : Nat) (rest : List FetchResponse) (cursor : String)
        (consecFail : Nat) (acc : List ReviewData) (retryCount : Nat),
      fetchLoop maxRetries (.networkError :: rest) cursor consecFail acc retryCount
        = (.fatal .network, [])) ∧
    (∀ (maxRetries : Nat) (rest : List FetchResponse) (cursor : String)
        (consecFail : Nat) (acc : List ReviewData) (retryCount : Nat),
      fetchLoop maxRetries (.validationError :: rest) cursor consecFail acc retryCount
        = (.fatal .validation, [])) ∧
    (∀ (maxRetries : Nat) (rest : List FetchResponse) (cursor : String)
        (consecFail : Nat) (acc : List ReviewData) (retryCount : Nat),
      retryCount + 1 ≥ maxRetries →
      fetchLoop maxRetries (.rateLimited :: rest) cursor consecFail acc retryCount
        = (.fatal .rateLimitExceeded, [])) ∧
    (∀ (config : ScrapingConfig) (maxRetries : Nat) (script : List FetchResponse)
        (e : FetchError),
      (fetchLoop maxRetries script "" 0 [] 0).1 = .fatal e →
      (get_reviews_from_title_code config maxRetries script).1 = .fatal e) := by
  refine ⟨fun _ _ _ _ _ _ => rfl, fun _ _ _ _ _ _ => rfl, ?_, ?_⟩
  · intro maxRetries rest cursor consecFail acc retryCount h
    have hred : fetchLoop maxRetries (.rateLimited :: rest) cursor consecFail acc retryCount
        = if retryCount + 1 < maxRetries then
            ((fetchLoop maxRetries rest cursor consecFail acc (retryCount + 1)).1,
              rate_limit_wait (retryCount + 1) ::
                (fetchLoop maxRetries rest cursor consecFail acc (retryCount + 1)).2)
          else ((FetchOutcome.fatal .rateLimitExceeded), ([] : List Nat)) := rfl
    rw [hred, if_neg (by omega)]
  · intro config maxRetries script e h
    unfold get_reviews_from_title_code
    rcases h2 : fetchLoop maxRetries script "" 0 [] 0 with ⟨out, waits⟩
    rw [h2] at h
    cases out with
    | ok reviews => simp at h
    | fatal e2 =>
      have h3 : FetchOutcome.fatal e2 = FetchOutcome.fatal e := h
      injection h3 with he
      subst he
      rfl
    | outOfScript => simp at h

/-- Witness for `fatal_error_discards_accumulated`: a page followed by rate limiting
past the budget discards the accumulated page. -/
theorem fatal_error_discards_accumulated_witness :
    fetchLoop 3 [.rateLimited] "c" 0 [⟨101, 1, some 7, 2, 0, 150⟩] 2
      = (.fatal .rateLimitExceeded, []) ∧
    (get_reviews_from_title_code ⟨1, 100⟩ 1
        [.page [⟨101, 1, some 7, 2, 0, 150⟩] true "c", .rateLimited]).1
      = .fatal .rateLimitExceeded :=
  ⟨fatal_error_discards_accumulated.2.2.1 3 [] "c" 0 [⟨101, 1, some 7, 2, 0, 150⟩] 2
      (by decide),
   fatal_error_discards_accumulated.2.2.2 ⟨1, 100⟩ 1
      [.page [⟨101, 1, some 7, 2, 0, 150⟩] true "c", .rateLimited]
      .rateLimitExceeded (by decide)⟩

/-- C10: with `titles_to_update = None` the orchestrator processes exactly
the stored titles whose `needsUpdate` and `firstWorld` flags are both
non-null `true`: an id is selected iff some stored row carries it with both
flags `true`, so a row with `firstWorld` false or null is never selected on
its own account. -/
theorem default_title_selection_spec :
    (∀ (rows : List TitleRow) (i : Nat),
      i ∈ get_titles_needing_update rows ↔
        ∃ r ∈ rows, r.id = i ∧ r.needsUpdate = some true ∧ r.firstWorld = some true) ∧
    (∀ store : Store, select_titles store none = get_titles_needing_update store.titles) := by
  constructor
  · intro rows i
    unfold get_titles_needing_update
    simp only [List.mem_map, List.mem_filter, Bool.and_eq_true, beq_iff_eq]
    constructor
    · rintro ⟨r, ⟨hr, hnu, hfw⟩, rfl⟩
      exact ⟨r, hr, rfl, hnu, hfw⟩
    · rintro ⟨r, hr, hid, hnu, hfw⟩
      exact ⟨r, ⟨hr, hnu, hfw⟩, hid⟩
  · intro store
    rfl

/-- C1 counterexample: a title whose fetch completes without a fatal error
but yields an empty filtered review set does NOT get its `needsUpdate` flag
cleared — the orchestrator only calls `mark_titles_updated` inside the
`if not review_df.is_empty()` branch, so the store is left untouched and
the flag stays `true`. -/
theorem empty_fetch_leaves_needsUpdate_set :
    (get_reviews_from_title_code ⟨1, 100⟩ 3 [.page [] false ""]).1 = .ok [] ∧
    (process_title ⟨1, 100⟩ 3 1000 ⟨[⟨1, some true, some true⟩], []⟩ 1
        [.page [] false ""] none).1
      = ⟨[⟨1, some true, some true⟩], []⟩ := by decide

/-- C1 amended: after a fetch that completes without a fatal error,
`needsUpdate` is cleared only when the filtered review set is non-empty
(and the upsert succeeds); an empty filtered set leaves the store — and so
the flag — untouched, while a non-empty one upserts the reviews and sets
the title's `needsUpdate` to `false`. -/
theorem needsUpdate_cleared_iff_nonempty (config : ScrapingConfig)
    (maxRetries batch_size : Nat) (store : Store) (title_id : Nat)
    (script : List FetchResponse) (filtered : List ReviewData)
    (hok : (get_reviews_from_title_code config maxRetries script).1 = .ok filtered) :
    (filtered = [] →
      (process_title config maxRetries batch_size store title_id script none).1
        = store) ∧
    (filtered ≠ [] →
      process_title config maxRetries batch_size store title_id script none
        = ({ titles := mark_titles_updated store.titles title_id,
             reviews := upsert_reviews store.reviews filtered }, .updated) ∧
      ∀ r ∈ (process_title config maxRetries batch_size store title_id
              script none).1.titles,
        r.id = title_id → r.needsUpdate = some false) := by
  have hred : process_title config maxRetries batch_size store title_id script none
      = if filtered.isEmpty then (store, .noReviews)
        else ({ titles := mark_titles_updated store.titles title_id,
                reviews := upsert_reviews store.reviews filtered }, .updated) := by
    unfold process_title
    rw [hok]
    rfl
  constructor
  · intro hempty
    rw [hred, hempty]
    rfl
  · intro hne
    have hie : filtered.isEmpty = false := by
      cases filtered with
      | nil => exact absurd rfl hne
      | cons a l => rfl
    have hstep : process_title config maxRetries batch_size store title_id script none
        = ({ titles := mark_titles_updated store.titles title_id,
             reviews := upsert_reviews store.reviews filtered }, .updated) := by
      rw [hred, hie]
      rfl
    refine ⟨hstep, ?_⟩
    rw [hstep]
    intro r hr hid
    simp only [mark_titles_updated, List.mem_map] at hr
    obtain ⟨r0, _, rfl⟩ := hr
    by_cases h0 : (r0.id == title_id) = true
    · rw [if_pos h0]
    · rw [if_neg h0] at hid ⊢
      exact absurd (beq_iff_eq.mpr hid) h0

/-- Witness for `needsUpdate_cleared_iff_nonempty`: a one-review fetch
clears the flag and stores the review; the empty branch applied to an
empty fetch leaves the store unchanged. -/
theorem needsUpdate_cleared_iff_nonempty_witness :
    (process_title ⟨1, 100⟩ 3 1000 ⟨[⟨1, some true, some true⟩], []⟩ 1
        [.page [] false ""] none).1
      = ⟨[⟨1, some true, some true⟩], []⟩ ∧
    process_title ⟨1, 100⟩ 3 1000 ⟨[⟨1, some true, some true⟩], []⟩ 1
        [.page [⟨101, 1, some 7, 2, 0, 150⟩] false "c"] none
      = ({ titles := mark_titles_updated [⟨1, some true, some true⟩] 1,
           reviews := upsert_reviews [] [⟨101, 1, some 7, 2, 0, 150⟩] }, .updated) :=
  ⟨(needsUpdate_cleared_iff_nonempty ⟨1, 100⟩ 3 1000
      ⟨[⟨1, some true, some true⟩], []⟩ 1 [.page [] false ""] [] rfl).1 rfl,
   ((needsUpdate_cleared_iff_nonempty ⟨1, 100⟩ 3 1000
      ⟨[⟨1, some true, some true⟩], []⟩ 1
      [.page [⟨101, 1, some 7, 2, 0, 150⟩] false "c"] [⟨101, 1, some 7, 2, 0, 150⟩]
      rfl).2 (by decide)).1⟩

/-- C2 counterexample: an upsert failure (`DatabaseOperationError` from
`upsert_batch`) while processing title 1 does not abort the run — the
per-title `except Exception: continue` swallows it, and title 2 is still
processed and updated afterwards. -/
theorem upsert_failure_run_continues :
    (process_title ⟨1, 100⟩ 3 1000
        ⟨[⟨1, some true, some true⟩, ⟨2, some true, some true⟩], []⟩ 1
        [.page [⟨101, 1, some 7, 2, 0, 150⟩] false "c"] (some 0)).2 = .errored ∧
    update_reviews_table ⟨1, 100⟩ 3 1000
        ⟨[⟨1, some true, some true⟩, ⟨2, some true, some true⟩], []⟩
        (some [1, 2])
        (fun i => if i == 1
          then ([.page [⟨101, 1, some 7, 2, 0, 150⟩] false "c"], some 0)
          else ([.page [⟨202, 2, some 8, 3, 0, 120⟩] false "c"], none))
      = ⟨[⟨1, some true, some true⟩, ⟨2, some false, some true⟩],
         [⟨202, 2, some 8, 3, 0, 120⟩]⟩ := by decide

/-- C2 amended: a `DatabaseOperationError` raised during the batched review
upsert is caught by the per-title handler rather than propagating out of
`update_reviews_table`: the iteration ends `errored`, the titles table is
untouched (the title's `needsUpdate` is not cleared, `mark_titles_updated`
being unreached), the review batches written before the failing one remain
persisted, and the run continues with the remaining titles from that
store. -/
theorem upsert_failure_skips_title (config : ScrapingConfig)
    (maxRetries batch_size : Nat) (store : Store) (t : Nat)
    (script : List FetchResponse) (k : Nat) (filtered : List ReviewData)
    (hok : (get_reviews_from_title_code config maxRetries script).1 = .ok filtered)
    (hfail : k * batch_size < filtered.length) :
    (process_title config maxRetries batch_size store t script (some k)
      = ({ titles := store.titles,
           reviews := upsert_reviews store.reviews
             (filtered.take (k * batch_size)) }, .errored)) ∧
    (∀ (rest : List Nat) (jobs : Nat → List FetchResponse × Option Nat),
      jobs t = (script, some k) →
      update_reviews_table config maxRetries batch_size store (some (t :: rest)) jobs
        = update_reviews_table config maxRetries batch_size
            ({ titles := store.titles,
               reviews := upsert_reviews store.reviews
                 (filtered.take (k * batch_size)) })
            (some rest) jobs) := by
  have hie : filtered.isEmpty = false := by
    cases filtered with
    | nil => simp at hfail
    | cons a l => rfl
  have hstep : process_title config maxRetries batch_size store t script (some k)
      = ({ titles := store.titles,
           reviews := upsert_reviews store.reviews
             (filtered.take (k * batch_size)) }, .errored) := by
    unfold process_title upsert_batch
    rw [hok]
    simp only [hie, Bool.false_eq_true, if_false, if_pos hfail]
  refine ⟨hstep, ?_⟩
  intro rest jobs hjob
  unfold update_reviews_table select_titles
  simp only [List.foldl_cons, hjob]
  rw [hstep]

/-- Witness for `upsert_failure_skips_title`: with `batch_size = 1` and the
second batch's write failing, the first review stays persisted, the title's
`needsUpdate` stays `true`, and the fold continues from that store. -/
theorem upsert_failure_skips_title_witness :
    (process_title ⟨1, 100⟩ 3 1 ⟨[⟨1, some true, some true⟩], []⟩ 1
        [.page [⟨101, 1, some 7, 2, 0, 150⟩, ⟨102, 1, some 8, 3, 0, 130⟩] false "c"]
        (some 1)
      = ({ titles := [⟨1, some true, some true⟩],
           reviews := upsert_reviews []
             ([⟨101, 1, some 7, 2, 0, 150⟩, ⟨102, 1, some 8, 3, 0, 130⟩].take (1 * 1)) },
         .errored)) ∧
    update_reviews_table ⟨1, 100⟩ 3 1 ⟨[⟨1, some true, some true⟩], []⟩ (some [1])
        (fun _ =>
          ([.page [⟨101, 1, some 7, 2, 0, 150⟩, ⟨102, 1, some 8, 3, 0, 130⟩] false "c"],
           some 1))
      = update_reviews_table ⟨1, 100⟩ 3 1
          ({ titles := [⟨1, some true, some true⟩],
             reviews := upsert_reviews []
               ([⟨101, 1, some 7, 2, 0, 150⟩, ⟨102, 1, some 8, 3, 0, 130⟩].take (1 * 1)) })
          (some []) (fun _ =>
            ([.page [⟨101, 1, some 7, 2, 0, 150⟩, ⟨102, 1, some 8, 3, 0, 130⟩] false "c"],
             some 1)) :=
  ⟨(upsert_failure_skips_title ⟨1, 100⟩ 3 1 ⟨[⟨1, some true, some true⟩], []⟩ 1
      [.page [⟨101, 1, some 7, 2, 0, 150⟩, ⟨102, 1, some 8, 3, 0, 130⟩] false "c"] 1
      [⟨101, 1, some 7, 2, 0, 150⟩, ⟨102, 1, some 8, 3, 0, 130⟩] rfl (by decide)).1,
   (upsert_failure_skips_title ⟨1, 100⟩ 3 1 ⟨[⟨1, some true, some true⟩], []⟩ 1
      [.page [⟨101, 1, some 7, 2, 0, 150⟩, ⟨102, 1, some 8, 3, 0, 130⟩] false "c"] 1
      [⟨101, 1, some 7, 2, 0, 150⟩, ⟨102, 1, some 8, 3, 0, 130⟩] rfl (by decide)).2
      [] (fun _ =>
        ([.page [⟨101, 1, some 7, 2, 0, 150⟩, ⟨102, 1, some 8, 3, 0, 130⟩] false "c"],
         some 1)) rfl⟩

/-- Witness for `pagination_four_pages`: a concrete four-page script with a
fifth (unconsumed) entry. -/
theorem pagination_four_pages_witness :
    fetchLoop SCRAPER_MAX_RETRIES
      ([.page [⟨101, 1, some 7, 2, 0, 150⟩] true "a", .page [] true "b",
        .page [⟨102, 1, none, 0, 0, 9⟩] true "c", .page [] false "d"]
        ++ [.transient]) "" 0 [] 0
      = (.ok ([⟨101, 1, some 7, 2, 0, 150⟩] ++ [] ++ [⟨102, 1, none, 0, 0, 9⟩] ++ []),
         []) :=
  pagination_four_pages [⟨101, 1, some 7, 2, 0, 150⟩] [] [⟨102, 1, none, 0, 0, 9⟩] []
    "a" "b" "c" "d" [.transient]

/-- Witness for `rate_limit_backoff_spec`: the wait formula at attempt 4. -/
theorem rate_limit_backoff_spec_witness :
    rate_limit_wait 4
      = min (RATE_LIMIT_BASE_WAIT_SECONDS * 4) RATE_LIMIT_MAX_WAIT_SECONDS :=
  rate_limit_backoff_spec.1 4

/-- Witness for `default_title_selection_spec`: on a concrete store, only
the title with both flags `true` is selected — a `firstWorld = false` row
and a `firstWorld` null row are skipped. -/
theorem default_title_selection_spec_witness :
    get_titles_needing_update
        [⟨1, some true, some true⟩, ⟨2, some true, some false⟩, ⟨3, some true, none⟩]
      = [1] ∧
    (1 ∈ get_titles_needing_update [⟨1, some true, some true⟩] ↔
      ∃ r ∈ ([⟨1, some true, some true⟩] : List TitleRow),
        r.id = 1 ∧ r.needsUpdate = some true ∧ r.firstWorld = some true) :=
  ⟨by decide, default_title_selection_spec.1 [⟨1, some true, some true⟩] 1⟩
